import Mathlib

/-!
Verification of the afnio client synchronization runtime.

This file gives a shallow embedding, in Lean 4, of the parts of the afnio
repository that the verified properties speak about:

* the Python value domain crossing the RPC serialization boundary
  (afnio/_utils.py, afnio/autodiff/function.py),
* the local object registries and the pending-grad-fn map
  (afnio/tellurio/_variable_registry.py, afnio/tellurio/_node_registry.py),
* the WebSocket transport state: pending-request table, credential storage,
  listener step (afnio/tellurio/websocket_client.py),
* the run lifecycle (afnio/tellurio/run.py, afnio/tellurio/run_context.py).

Python dictionaries are modelled as association lists with unique keys,
Python exceptions as an explicit error type threaded through Except,
and module-level mutable state as explicit state records.
-/

set_option autoImplicit false

namespace Afnio

/-- Python primitive values as they cross the serialization boundary:
strings, integers, floats, booleans and None.  Floats are modelled as
rationals (the encoder and decoder treat them as opaque identities; the
model therefore covers every float with a numeric value, NaN excluded). -/
inductive Prim where
  | str (s : String)
  | int (n : Int)
  | float (q : Rat)
  | bool (b : Bool)
  | none
deriving DecidableEq, Repr

mutual

/-- The Python values handled by the serializer and deserializer in
afnio/_utils.py and afnio/autodiff/function.py: primitives, Variable /
Parameter / ChatCompletionModel instances (identified by the server id
they are registered under, following the arena style of the design
notes), arbitrary callables (identified by an index), and lists, tuples
and string-keyed dicts of such values. -/
inductive PyVal where
  | prim (p : Prim)
  | varObj (id : String)
  | paramObj (id : String)
  | modelObj (id : String)
  | fnObj (f : Nat)
  | listV (xs : PyList)
  | tupleV (xs : PyList)
  | dictV (d : PyDict)

/-- A Python list or tuple of PyVal. -/
inductive PyList where
  | nil
  | cons (hd : PyVal) (tl : PyList)

/-- A Python string-keyed dict of PyVal, in insertion order. -/
inductive PyDict where
  | nil
  | cons (k : String) (v : PyVal) (tl : PyDict)

end

deriving instance DecidableEq for PyVal
deriving instance DecidableEq for PyList
deriving instance DecidableEq for PyDict

/-- Python truthiness of a primitive. -/
def Prim.truthy : Prim → Bool
  | .str s => s ≠ ""
  | .int n => n ≠ 0
  | .float q => q ≠ 0
  | .bool b => b
  | .none => false

/-- Emptiness of a modelled list. -/
def PyList.isNil : PyList → Bool
  | .nil => true
  | .cons _ _ => false

/-- Emptiness of a modelled dict. -/
def PyDict.isNil : PyDict → Bool
  | .nil => true
  | .cons _ _ _ => false

/-- Python truthiness of a value: empty containers, zero numbers, the
empty string, False and None are falsy; Variable / Parameter / model /
callable objects define no custom bool conversion and are truthy. -/
def PyVal.truthy : PyVal → Bool
  | .prim p => p.truthy
  | .varObj _ => true
  | .paramObj _ => true
  | .modelObj _ => true
  | .fnObj _ => true
  | .listV xs => ¬ xs.isNil
  | .tupleV xs => ¬ xs.isNil
  | .dictV d => ¬ d.isNil

/-- Key lookup in a modelled dict, Python d.get(k). -/
def PyDict.get? : PyDict → String → Option PyVal
  | .nil, _ => Option.none
  | .cons k v tl, key => if k = key then some v else tl.get? key

/-- Python membership test, k in d. -/
def PyDict.hasKey (d : PyDict) (key : String) : Bool := (d.get? key).isSome

/-- Python d.get(k): the value, or None when the key is absent. -/
def PyDict.pyGet (d : PyDict) (key : String) : PyVal := (d.get? key).getD (.prim .none)

/-- The Python exceptions raised by the embedded code. -/
inductive PyErr where
  | typeError (msg : String)
  | valueError (msg : String)
  | runtimeError (msg : String)
  | keyError (key : String)
  | attributeError (msg : String)
  | timeoutError
deriving DecidableEq, Repr

section AList

variable {κ α : Type} [DecidableEq κ]

/-- Lookup in a Python dict modelled as an association list. -/
def alookup : List (κ × α) → κ → Option α
  | [], _ => Option.none
  | (k, v) :: tl, key => if k = key then some v else alookup tl key

/-- Python dict assignment d[k] = v: replaces the value in place when the
key exists, otherwise appends the new entry (insertion order). -/
def ainsert : List (κ × α) → κ → α → List (κ × α)
  | [], key, v => [(key, v)]
  | (k, w) :: tl, key, v =>
    if k = key then (k, v) :: tl else (k, w) :: ainsert tl key v

/-- Python d.pop(k, None): removes the entry with the given key.  Keys of a
Python dict are unique, so removing every occurrence coincides with
removing the single entry. -/
def aremove : List (κ × α) → κ → List (κ × α)
  | [], _ => []
  | (k0, w) :: tl, key =>
    if k0 = key then aremove tl key else (k0, w) :: aremove tl key

theorem alookup_ainsert_self (l : List (κ × α)) (k : κ) (v : α) :
    alookup (ainsert l k v) k = some v := by
  induction l with
  | nil => simp [ainsert, alookup]
  | cons hd tl ih =>
    cases hd with
    | mk k0 w =>
      by_cases h0 : k0 = k
      · simp [ainsert, alookup, h0]
      · simp [ainsert, alookup, h0, ih]

theorem alookup_ainsert_ne (l : List (κ × α)) (k k' : κ) (v : α) (h : k ≠ k') :
    alookup (ainsert l k v) k' = alookup l k' := by
  induction l with
  | nil => simp [ainsert, alookup, h]
  | cons hd tl ih =>
    cases hd with
    | mk k0 w =>
      by_cases h0 : k0 = k
      · subst h0
        simp [ainsert, alookup, h]
      · simp [ainsert, alookup, h0, ih]

theorem alookup_aremove_self (l : List (κ × α)) (k : κ) :
    alookup (aremove l k) k = Option.none := by
  induction l with
  | nil => simp [aremove, alookup]
  | cons hd tl ih =>
    cases hd with
    | mk k0 w =>
      by_cases h0 : k0 = k
      · simp [aremove, h0, ih]
      · simp [aremove, alookup, h0, ih]

theorem ainsert_absent_append (l : List (κ × α)) (k : κ) (v : α)
    (h : alookup l k = Option.none) : ainsert l k v = l ++ [(k, v)] := by
  induction l with
  | nil => simp [ainsert]
  | cons hd tl ih =>
    cases hd with
    | mk k0 w =>
      by_cases h0 : k0 = k
      · subst h0
        simp [alookup] at h
      · simp only [alookup, if_neg h0] at h
        simp [ainsert, h0, ih h]

theorem aremove_ainsert (l : List (κ × α)) (k : κ) (v : α) :
    aremove (ainsert l k v) k = aremove l k := by
  induction l with
  | nil => simp [ainsert, aremove]
  | cons hd tl ih =>
    cases hd with
    | mk k0 w =>
      by_cases h0 : k0 = k
      · simp [ainsert, aremove, h0]
      · simp [ainsert, aremove, h0, ih]

end AList

/-! ## The mirrored entity model -/

/-- A backward-graph Node (afnio/autodiff/graph.py): the Node()
constructor leaves name and node_id as None; create_node fills both.
The next_functions edge list is append-only and is not needed by any
verified property, so it is omitted from the record. -/
structure Node where
  name : PyVal
  node_id : PyVal
deriving DecidableEq

/-- The mirrored Variable entity, restricted to the fields the embedded
code reads or writes.  afnio/_variable.py is not among the provided
sources; the record follows the data model of the specification (spec 3)
and the field accesses visible in the provided code.  grad_fn holds the
assigned Node, pending_grad_fn_id the node id the variable waits for. -/
structure Variable where
  variable_id : PyVal
  data : PyVal
  role : PyVal
  requires_grad : PyVal
  retain_grad : PyVal
  grad : PyVal
  output_nr : PyVal
  grad_fn : Option Node
  pending_grad_fn_id : Option PyVal
  is_leaf : PyVal
  pending_grad : Bool
  pending_data : Bool
  initialized : Bool
deriving DecidableEq

/-- The process-wide registry state shared by the tellurio modules:
NODE_REGISTRY (afnio/tellurio/_node_registry.py), VARIABLE_REGISTRY and
PENDING_GRAD_FN_ASSIGNMENTS (afnio/tellurio/_variable_registry.py).
Registry keys are the id values stored on the objects. -/
structure RegState where
  nodes : List (PyVal × Node)
  vars : List (PyVal × Variable)
  pending_grad_fn : List (PyVal × List Variable)
deriving DecidableEq

/-- register_node (afnio/tellurio/_node_registry.py 9-17): registers the
node under its node_id when that id is truthy. -/
def register_node (node : Node) (st : RegState) : RegState :=
  if node.node_id.truthy then
    { st with nodes := ainsert st.nodes node.node_id node }
  else st

/-- get_node (afnio/tellurio/_node_registry.py 20-32):
NODE_REGISTRY.get(node_id).  The registry is keyed by the ids stored at
registration; a key absent from the registry misses. -/
def get_node (st : RegState) (node_id : PyVal) : Option Node :=
  alookup st.nodes node_id

/-- register_variable (afnio/tellurio/_variable_registry.py 31-39):
registers the variable under its variable_id when that id is truthy. -/
def register_variable (var : Variable) (st : RegState) : RegState :=
  if var.variable_id.truthy then
    { st with vars := ainsert st.vars var.variable_id var }
  else st

/-- get_variable (afnio/tellurio/_variable_registry.py 42-52):
VARIABLE_REGISTRY.get(variable_id). -/
def get_variable (st : RegState) (variable_id : PyVal) : Option Variable :=
  alookup st.vars variable_id

/-- create_node (afnio/tellurio/_node_registry.py 35-49): node = Node();
node._name = data["name"]; node.node_id = data["node_id"];
register_node(node); return node.  Missing keys raise KeyError. -/
def create_node (data : PyDict) (st : RegState) : Except PyErr (Node × RegState) :=
  match data.get? "name" with
  | Option.none => .error (.keyError "name")
  | some nm =>
    match data.get? "node_id" with
    | Option.none => .error (.keyError "node_id")
    | some nid =>
      let node : Node := ⟨nm, nid⟩
      .ok (node, register_node node st)

/-- Sets the transient pending_grad flag of the registered variable with
the given id (the effect of var._pending_grad = b on the object held by
the registry). -/
def setPendingGrad (st : RegState) (id : PyVal) (b : Bool) : RegState :=
  match alookup st.vars id with
  | some v => { st with vars := ainsert st.vars id { v with pending_grad := b } }
  | Option.none => st

/-- Sets the transient pending_data flag of the registered variable with
the given id. -/
def setPendingData (st : RegState) (id : PyVal) (b : Bool) : RegState :=
  match alookup st.vars id with
  | some v => { st with vars := ainsert st.vars id { v with pending_data := b } }
  | Option.none => st

/-- clear_pending_grad (afnio/tellurio/_variable_registry.py 124-138):
iterates over the given ids; an id missing from the registry raises
RuntimeError, leaving the flags already cleared for the preceding ids;
otherwise sets the _pending_grad flag of that variable to False.  The
returned pair is the registry state reached when the loop stops and the
raised error, if any. -/
def clear_pending_grad : List String → RegState → RegState × Option PyErr
  | [], st => (st, Option.none)
  | id :: rest, st =>
    match get_variable st (.prim (.str id)) with
    | Option.none => (st, some (.runtimeError "Variable not found in registry"))
    | some _ => clear_pending_grad rest (setPendingGrad st (.prim (.str id)) false)

/-- clear_pending_data (afnio/tellurio/_variable_registry.py 141-155):
identical to clear_pending_grad but for the _pending_data flag. -/
def clear_pending_data : List String → RegState → RegState × Option PyErr
  | [], st => (st, Option.none)
  | id :: rest, st =>
    match get_variable st (.prim (.str id)) with
    | Option.none => (st, some (.runtimeError "Variable not found in registry"))
    | some _ => clear_pending_data rest (setPendingData st (.prim (.str id)) false)

/-! ## The scoped suppression flag -/

/-- The process state seen by the suppression context manager: the
module-level _SUPPRESS_NOTIFICATIONS flag together with whatever other
state the body manipulates. -/
structure SuppressState (σ : Type) where
  suppress : Bool
  user : σ
deriving DecidableEq, Repr

/-- is_variable_notify_suppressed
(afnio/tellurio/_variable_registry.py 177-188): returns the current
value of the module-level flag. -/
def is_variable_notify_suppressed {σ : Type} (st : SuppressState σ) : Bool :=
  st.suppress

/-- suppress_variable_notifications
(afnio/tellurio/_variable_registry.py 158-174): saves the current flag
as a token, sets the flag to True, runs the body (which may itself
raise, modelled by the Except result, and may itself enter nested
suppression scopes, modelled by an arbitrary state transformer), and in
the finally clause restores the saved token. -/
def suppress_variable_notifications {σ ε α : Type}
    (body : SuppressState σ → Except ε α × SuppressState σ)
    (st : SuppressState σ) : Except ε α × SuppressState σ :=
  let token := st.suppress
  let entered : SuppressState σ := { st with suppress := true }
  let res := body entered
  (res.1, { res.2 with suppress := token })

/-! ## The WebSocket transport -/

/-- The client-side transport state of TellurioWebSocketClient
(afnio/tellurio/websocket_client.py): the stored credential, whether the
connection object is set, and the pending-request table mapping request
ids to waiting futures (futures abstracted as tokens). -/
structure WSClient where
  api_key : Option String
  connected : Bool
  pending : List (String × Nat)
deriving DecidableEq, Repr

/-- The Authorization header value built by connect from the stored
credential (line 88): the Python f-string renders a missing key as the
literal None. -/
def authHeader : Option String → String
  | some k => "Api-Key " ++ k
  | Option.none => "Api-Key None"

/-- connect (afnio/tellurio/websocket_client.py 66-97, credential
handling): line 86 stores the api_key argument unconditionally, then the
Authorization header is built from the stored value.  The returned
string is the header used for the connection attempt. -/
def connect (st : WSClient) (api_key : Option String) : WSClient × String :=
  let st1 : WSClient := { st with api_key := api_key }
  ({ st1 with connected := true }, authHeader st1.api_key)

/-- The reconnect path of the listener
(afnio/tellurio/websocket_client.py 152-155): on a closed-connection
error it sleeps and calls self.connect() with no argument, so connect
runs with its default api_key of None. -/
def listener_reconnect (st : WSClient) : WSClient × String :=
  connect st Option.none

/-- What the listener does with one inbound frame. -/
inductive ListenerAction where
  /-- A pending waiter with the frame id was resolved with the full frame
  (both the error and the result form deliver the frame). -/
  | resolved (reqId : String)
  /-- A pending waiter existed but the frame had neither result nor
  error: the waiter receives a ValueError. -/
  | resolvedBadFormat (reqId : String)
  /-- The frame carried an id with no matching pending entry: the
  listener logs an unexpected-message warning and drops the frame. -/
  | droppedUnexpected
  /-- The frame carried no truthy id: the listener body does nothing. -/
  | ignored
deriving DecidableEq, Repr

/-- One iteration of the listener loop on a parsed frame
(afnio/tellurio/websocket_client.py 129-157): req_id = data.get("id");
if req_id is truthy, pop the pending entry; a found waiter is resolved
with the frame (or fails with ValueError when the frame has neither
error nor result); with no waiter the frame is logged and dropped.  A
frame without truthy id falls through the if and is ignored.  No other
behaviour exists: in particular nothing is dispatched and nothing is
sent back. -/
def listener_step (pending : List (String × Nat)) (frame : PyDict) :
    List (String × Nat) × ListenerAction :=
  let reqId := frame.pyGet "id"
  if reqId.truthy then
    match reqId with
    | .prim (.str s) =>
      match alookup pending s with
      | some _ =>
        (aremove pending s,
          if frame.hasKey "error" then .resolved s
          else if frame.hasKey "result" then .resolved s
          else .resolvedBadFormat s)
      | Option.none => (pending, .droppedUnexpected)
    | _ => (pending, .droppedUnexpected)
  else (pending, .ignored)

/-- call (afnio/tellurio/websocket_client.py 159-211) for a request
carrying an id: fails with RuntimeError when not connected; otherwise
sends the frame and stores a future in the pending table under the fresh
request id.  The arrival argument is the oracle for the matching
response: some frame means the listener resolved the waiter (the
listener removed the entry before resolving it, listener_step above),
none means asyncio.wait_for raised TimeoutError, upon which call pops
the pending entry and re-raises. -/
def call (st : WSClient) (reqId : String) (arrival : Option PyDict) :
    WSClient × Except PyErr PyDict :=
  if ¬ st.connected then
    (st, .error (.runtimeError "WebSocket is not connected"))
  else
    let stSent : WSClient := { st with pending := ainsert st.pending reqId 0 }
    match arrival with
    | some frame =>
      ({ stSent with pending := aremove stSent.pending reqId }, .ok frame)
    | Option.none =>
      ({ stSent with pending := aremove stSent.pending reqId }, .error .timeoutError)

/-! ## The run lifecycle -/

/-- The Run object fields used by finish (afnio/tellurio/run.py):
organization slug, project slug and run uuid, each possibly missing. -/
structure RunObj where
  org : Option String
  project : Option String
  uuid : Option String
deriving DecidableEq, Repr

/-- Python truthiness of an optional slug: missing or empty is falsy. -/
def slugTruthy : Option String → Bool
  | some s => s ≠ ""
  | Option.none => false

/-- The state touched by Run.finish: the run status stored on the
server, the local Run.status field, and the process-wide active run uuid
of afnio/tellurio/run_context.py. -/
structure RunState where
  serverStatus : String
  localStatus : String
  activeRunUuid : Option String
deriving DecidableEq, Repr

/-- Modelled from the spec: TellurioClient.patch is called by Run.finish
and by tests/tellurio/test_run.py but is not among the provided sources
(the provided client.py defines only get, post and delete).  Per spec
4.7 and 6, PATCH on the run endpoint sets the run status on the server
and answers 200 with the updated resource. -/
def clientPatch (_server : String) (newStatus : String) : String × Nat :=
  (newStatus, 200)

/-- Run.finish (afnio/tellurio/run.py 98-140): fails with ValueError
when any of the three identifiers is missing or empty; otherwise PATCHes
status COMPLETED, on a 200 response sets the local status to COMPLETED,
and finally clears the active run uuid (set_active_run_uuid(None),
wrapped so its failure is ignored). -/
def Run.finish (r : RunObj) (st : RunState) : Except PyErr RunState :=
  if slugTruthy r.org ∧ slugTruthy r.project ∧ slugTruthy r.uuid then
    let patched := clientPatch st.serverStatus "COMPLETED"
    if patched.2 = 200 then
      .ok { serverStatus := patched.1, localStatus := "COMPLETED",
            activeRunUuid := Option.none }
    else
      .error (.runtimeError "Failed to update run status")
  else
    .error (.valueError "Run object is missing required identifiers")

/-- Repeated calls of Run.finish: finishIter (n+1) performs n+1
successive calls, stopping at the first raised exception. -/
def finishIter (r : RunObj) : Nat → RunState → Except PyErr RunState
  | 0, st => .ok st
  | n + 1, st =>
    match Run.finish r st with
    | .ok st1 => finishIter r n st1
    | .error e => .error e

/-! ## Helper lemmas about the registry operations -/

theorem get_variable_setPendingGrad (st : RegState) (id id' : PyVal) (b : Bool) :
    get_variable (setPendingGrad st id b) id'
      = if id = id' then
          (get_variable st id').map (fun v => { v with pending_grad := b })
        else get_variable st id' := by
  unfold setPendingGrad get_variable
  by_cases h : id = id'
  · subst h
    cases halt : alookup st.vars id with
    | none => simp [halt]
    | some v => simp [halt, alookup_ainsert_self]
  · cases halt : alookup st.vars id with
    | none => simp [halt, h]
    | some v => simp [halt, h, alookup_ainsert_ne _ _ _ _ h]

theorem get_variable_setPendingData (st : RegState) (id id' : PyVal) (b : Bool) :
    get_variable (setPendingData st id b) id'
      = if id = id' then
          (get_variable st id').map (fun v => { v with pending_data := b })
        else get_variable st id' := by
  unfold setPendingData get_variable
  by_cases h : id = id'
  · subst h
    cases halt : alookup st.vars id with
    | none => simp [halt]
    | some v => simp [halt, alookup_ainsert_self]
  · cases halt : alookup st.vars id with
    | none => simp [halt, h]
    | some v => simp [halt, h, alookup_ainsert_ne _ _ _ _ h]

/-- Once a registered variable has its pending_grad flag false, the rest
of a clear_pending_grad run keeps it false (each step only ever writes
false into that flag). -/
theorem clear_pending_grad_keeps_false (ids : List String) (st : RegState) (id : PyVal)
    (h : ∀ v, get_variable st id = some v → v.pending_grad = false) :
    ∀ v, get_variable ((clear_pending_grad ids st).1) id = some v →
      v.pending_grad = false := by
  induction ids generalizing st with
  | nil => exact h
  | cons i rest ih =>
    simp only [clear_pending_grad]
    cases hv : get_variable st (.prim (.str i)) with
    | none => exact h
    | some v0 =>
      apply ih
      intro v hv'
      rw [get_variable_setPendingGrad] at hv'
      by_cases heq : (PyVal.prim (.str i)) = id
      · rw [if_pos heq] at hv'
        cases hw : get_variable st id with
        | none => rw [hw] at hv'; cases hv'
        | some w =>
          rw [hw] at hv'
          cases hv'
          rfl
      · rw [if_neg heq] at hv'
        exact h v hv'

/-- Same preservation for clear_pending_data and the pending_data flag. -/
theorem clear_pending_data_keeps_false (ids : List String) (st : RegState) (id : PyVal)
    (h : ∀ v, get_variable st id = some v → v.pending_data = false) :
    ∀ v, get_variable ((clear_pending_data ids st).1) id = some v →
      v.pending_data = false := by
  induction ids generalizing st with
  | nil => exact h
  | cons i rest ih =>
    simp only [clear_pending_data]
    cases hv : get_variable st (.prim (.str i)) with
    | none => exact h
    | some v0 =>
      apply ih
      intro v hv'
      rw [get_variable_setPendingData] at hv'
      by_cases heq : (PyVal.prim (.str i)) = id
      · rw [if_pos heq] at hv'
        cases hw : get_variable st id with
        | none => rw [hw] at hv'; cases hv'
        | some w =>
          rw [hw] at hv'
          cases hv'
          rfl
      · rw [if_neg heq] at hv'
        exact h v hv'

theorem clear_pending_grad_stops_at_unknown (pre : List String) (u : String) (rest : List String)
    (st : RegState)
    (hpre : ∀ i ∈ pre, get_variable st (.prim (.str i)) ≠ Option.none)
    (hu : get_variable st (.prim (.str u)) = Option.none) :
    (clear_pending_grad (pre ++ u :: rest) st).2
        = some (.runtimeError "Variable not found in registry")
    ∧ ∀ i ∈ pre, ∀ v,
        get_variable ((clear_pending_grad (pre ++ u :: rest) st).1) (.prim (.str i))
          = some v → v.pending_grad = false := by
  induction pre generalizing st with
  | nil =>
    refine ⟨by simp [clear_pending_grad, hu], ?_⟩
    intro i hi
    exact absurd hi (List.not_mem_nil i)
  | cons p ps ih =>
    have hps := hpre p (by simp)
    cases hv0 : get_variable st (.prim (.str p)) with
    | none => exact absurd hv0 hps
    | some v0 =>
      rw [List.cons_append]
      simp only [clear_pending_grad, hv0]
      have hpre2 : ∀ i ∈ ps,
          get_variable (setPendingGrad st (.prim (.str p)) false) (.prim (.str i))
            ≠ Option.none := by
        intro i hi
        rw [get_variable_setPendingGrad]
        by_cases heq : (PyVal.prim (.str p)) = (PyVal.prim (.str i))
        · rw [if_pos heq]
          cases hw : get_variable st (.prim (.str i)) with
          | none => exact absurd hw (hpre i (by simp [hi]))
          | some w => simp
        · rw [if_neg heq]
          exact hpre i (by simp [hi])
      have hu2 : get_variable (setPendingGrad st (.prim (.str p)) false)
          (.prim (.str u)) = Option.none := by
        rw [get_variable_setPendingGrad]
        by_cases heq : (PyVal.prim (.str p)) = (PyVal.prim (.str u))
        · rw [if_pos heq, hu]
          rfl
        · rw [if_neg heq]
          exact hu
      obtain ⟨herr, hflags⟩ := ih (setPendingGrad st (.prim (.str p)) false) hpre2 hu2
      refine ⟨herr, ?_⟩
      intro i hi v hv
      rcases List.mem_cons.mp hi with heqi | hin
      · subst heqi
        refine clear_pending_grad_keeps_false (ps ++ u :: rest)
          (setPendingGrad st (.prim (.str i)) false) (.prim (.str i)) ?_ v hv
        intro w hw
        rw [get_variable_setPendingGrad] at hw
        rw [if_pos (Eq.refl (PyVal.prim (Prim.str i)))] at hw
        rw [hv0] at hw
        cases hw
        rfl
      · exact hflags i hin v hv

theorem clear_pending_data_stops_at_unknown (pre : List String) (u : String) (rest : List String)
    (st : RegState)
    (hpre : ∀ i ∈ pre, get_variable st (.prim (.str i)) ≠ Option.none)
    (hu : get_variable st (.prim (.str u)) = Option.none) :
    (clear_pending_data (pre ++ u :: rest) st).2
        = some (.runtimeError "Variable not found in registry")
    ∧ ∀ i ∈ pre, ∀ v,
        get_variable ((clear_pending_data (pre ++ u :: rest) st).1) (.prim (.str i))
          = some v → v.pending_data = false := by
  induction pre generalizing st with
  | nil =>
    refine ⟨by simp [clear_pending_data, hu], ?_⟩
    intro i hi
    exact absurd hi (List.not_mem_nil i)
  | cons p ps ih =>
    have hps := hpre p (by simp)
    cases hv0 : get_variable st (.prim (.str p)) with
    | none => exact absurd hv0 hps
    | some v0 =>
      rw [List.cons_append]
      simp only [clear_pending_data, hv0]
      have hpre2 : ∀ i ∈ ps,
          get_variable (setPendingData st (.prim (.str p)) false) (.prim (.str i))
            ≠ Option.none := by
        intro i hi
        rw [get_variable_setPendingData]
        by_cases heq : (PyVal.prim (.str p)) = (PyVal.prim (.str i))
        · rw [if_pos heq]
          cases hw : get_variable st (.prim (.str i)) with
          | none => exact absurd hw (hpre i (by simp [hi]))
          | some w => simp
        · rw [if_neg heq]
          exact hpre i (by simp [hi])
      have hu2 : get_variable (setPendingData st (.prim (.str p)) false)
          (.prim (.str u)) = Option.none := by
        rw [get_variable_setPendingData]
        by_cases heq : (PyVal.prim (.str p)) = (PyVal.prim (.str u))
        · rw [if_pos heq, hu]
          rfl
        · rw [if_neg heq]
          exact hu
      obtain ⟨herr, hflags⟩ := ih (setPendingData st (.prim (.str p)) false) hpre2 hu2
      refine ⟨herr, ?_⟩
      intro i hi v hv
      rcases List.mem_cons.mp hi with heqi | hin
      · subst heqi
        refine clear_pending_data_keeps_false (ps ++ u :: rest)
          (setPendingData st (.prim (.str i)) false) (.prim (.str i)) ?_ v hv
        intro w hw
        rw [get_variable_setPendingData] at hw
        rw [if_pos (Eq.refl (PyVal.prim (Prim.str i)))] at hw
        rw [hv0] at hw
        cases hw
        rfl
      · exact hflags i hin v hv


/-! ## Concrete fixtures used by the claim theorems -/

/-- A Variable waiting in the pending-grad-fn map for node id n1, its
grad_fn still unset (the state function.py _deserialize_output leaves it
in, lines 265-268). -/
def c1waiter : Variable :=
  ⟨.prim (.str "out-1"), .prim (.str "abcdef"), .prim (.str "sum role"),
   .prim (.bool true), .prim (.bool false), .listV .nil, .prim (.int 0),
   Option.none, some (.prim (.str "n1")), .prim (.bool false), false, false, true⟩

/-- Registry state with one Variable enqueued under node id n1. -/
def c1st : RegState :=
  ⟨[], [(.prim (.str "out-1"), c1waiter)], [(.prim (.str "n1"), [c1waiter])]⟩

/-- The create_node payload for node id n1. -/
def c1data : PyDict :=
  .cons "name" (.prim (.str "AddBackward"))
    (.cons "node_id" (.prim (.str "n1")) .nil)

/-- The inbound server-initiated frame of
tests/tellurio/test_variable_sync.py (method update_variable, request id
test-id-123). -/
def c2frame : PyDict :=
  .cons "jsonrpc" (.prim (.str "2.0"))
    (.cons "method" (.prim (.str "update_variable"))
      (.cons "params"
        (.dictV (.cons "variable_id" (.prim (.str "var-1"))
          (.cons "field" (.prim (.str "data"))
            (.cons "value" (.prim (.str "xyz")) .nil))))
        (.cons "id" (.prim (.str "test-id-123")) .nil)))

/-- A websocket client that connected with a stored credential. -/
def c4client : WSClient := ⟨some "secret-key", true, []⟩

/-! ## Claim theorems -/

/-- C1.  The claim states that create_node drains the pending-grad-fn
map for its node id, setting the grad_fn of every enqueued Variable and
removing the key.  Evaluating the code at a state with one enqueued
waiter shows the opposite: create_node only creates and registers the
Node; the pending map still holds the key n1 with the waiter, whose
grad_fn is still unset.  The repository test suite
(tests/tellurio/test_function_sync.py, assertions after the late
create_node call) requires exactly what the claim states, so the code
contradicts its own tests. -/
theorem create_node_leaves_pending_map :
    create_node c1data c1st
      = .ok (⟨.prim (.str "AddBackward"), .prim (.str "n1")⟩,
          ⟨[(.prim (.str "n1"), ⟨.prim (.str "AddBackward"), .prim (.str "n1")⟩)],
           [(.prim (.str "out-1"), c1waiter)],
           [(.prim (.str "n1"), [c1waiter])]⟩)
    ∧ alookup (match create_node c1data c1st with
        | .ok r => r.2.pending_grad_fn
        | .error _ => []) (.prim (.str "n1")) = some [c1waiter]
    ∧ c1waiter.grad_fn = Option.none :=
  ⟨rfl, rfl, rfl⟩

/-- C2.  The claim states that the listener dispatches an inbound frame
whose id has no pending entry to an inbound handler table and sends back
an acknowledgement with the same id.  Evaluating the listener at such a
frame (the update_variable request the repository test suite feeds it)
shows that the code merely logs the frame as unexpected and drops it:
the pending table is unchanged and the step has no dispatch or send
behaviour at all (no such action exists in the listener code).  The
repository test suite (tests/tellurio/test_variable_sync.py,
TestServerToClientVariableSync) requires the dispatch and the
acknowledgement, so the code contradicts its own tests. -/
theorem listener_drops_unmatched_inbound_request :
    listener_step [] c2frame = ([], ListenerAction.droppedUnexpected) := by
  decide

/-- C3.  Run.finish PATCHes the run status to COMPLETED, sets the local
status and clears the active-run id; any positive number of repeated
calls succeeds and leaves the server status COMPLETED, the local status
COMPLETED and the active-run id unset.  TellurioClient.patch is absent
from the provided sources and is modelled from the spec (clientPatch). -/
theorem run_finish_repeat_completed (r : RunObj) (st : RunState) (n : Nat)
    (h : slugTruthy r.org ∧ slugTruthy r.project ∧ slugTruthy r.uuid) :
    finishIter r (n + 1) st = .ok ⟨"COMPLETED", "COMPLETED", Option.none⟩ := by
  induction n generalizing st with
  | zero =>
    simp [finishIter, Run.finish, h, clientPatch]
  | succ m ih =>
    have hfin : Run.finish r st = .ok ⟨"COMPLETED", "COMPLETED", Option.none⟩ := by
      simp [Run.finish, h, clientPatch]
    simp only [finishIter, hfin]
    exact ih _

/-- Witness for C3 at a concrete run and three repeated calls. -/
theorem run_finish_repeat_completed_witness :
    finishIter ⟨some "org", some "proj", some "uuid-1"⟩ 3
        ⟨"RUNNING", "RUNNING", some "uuid-1"⟩
      = .ok ⟨"COMPLETED", "COMPLETED", Option.none⟩ :=
  run_finish_repeat_completed ⟨some "org", some "proj", some "uuid-1"⟩
    ⟨"RUNNING", "RUNNING", some "uuid-1"⟩ 2 (by decide)

/-- C4.  The claim states that after the reconnect triggered by a
closed-connection error the client still holds the credential stored at
the original connect, and reconnects with it.  Evaluating the reconnect
path shows the opposite: the listener calls connect() with its default
api_key of None, and connect stores that argument unconditionally, so
the stored credential is overwritten with None and the new connection
attempt authenticates with the literal header Api-Key None.  This
contradicts the specification sentence the claim quotes (reconnect with
the stored credential) and makes every reconnect attempt carry an
invalid credential, so the code is a slip. -/
theorem reconnect_discards_stored_credential :
    (listener_reconnect c4client).1.api_key = Option.none
    ∧ (listener_reconnect c4client).2 = "Api-Key None"
    ∧ (listener_reconnect c4client).2 ≠ authHeader (some "secret-key") := by
  decide

/-- C6.  A call whose matching response never arrives within the timeout
fails with TimeoutError and its pending entry is removed; when it was
the only outstanding call the pending table ends empty. -/
theorem call_timeout_clears_pending (st : WSClient) (reqId : String)
    (hconn : st.connected = true) :
    (call st reqId Option.none).2 = .error .timeoutError
    ∧ alookup ((call st reqId Option.none).1).pending reqId = Option.none
    ∧ (st.pending = [] → ((call st reqId Option.none).1).pending = []) := by
  have hcall : call st reqId Option.none
      = ({ st with pending := aremove (ainsert st.pending reqId 0) reqId },
         .error .timeoutError) := by
    unfold call
    rw [hconn]
    rfl
  rw [hcall]
  refine ⟨rfl, ?_, ?_⟩
  · show alookup (aremove (ainsert st.pending reqId 0) reqId) reqId = Option.none
    rw [aremove_ainsert]
    exact alookup_aremove_self st.pending reqId
  · intro hempty
    show aremove (ainsert st.pending reqId 0) reqId = []
    rw [hempty]
    simp [ainsert, aremove]

/-- Witness for C6 at a concrete connected client with an empty pending
table. -/
theorem call_timeout_clears_pending_witness :
    (call ⟨some "k", true, []⟩ "req-1" Option.none).2 = .error .timeoutError
    ∧ alookup ((call ⟨some "k", true, []⟩ "req-1" Option.none).1).pending "req-1"
        = Option.none
    ∧ ((call ⟨some "k", true, []⟩ "req-1" Option.none).1).pending = [] :=
  have h := call_timeout_clears_pending ⟨some "k", true, []⟩ "req-1" rfl
  ⟨h.1, h.2.1, h.2.2 rfl⟩

/-- C9.  The suppression flag is scoped and re-entrant: the body of
suppress_variable_notifications observes the flag as true, the flag is
restored to exactly its entry value on every exit (the body result is an
Except, so exceptional exits are covered), nesting two scopes also
restores the entry value, and is_variable_notify_suppressed returns the
current flag. -/
theorem suppression_flag_scoped_reentrant {σ ε α : Type}
    (body : SuppressState σ → Except ε α × SuppressState σ) (st : SuppressState σ) :
    is_variable_notify_suppressed ((suppress_variable_notifications body st).2)
        = is_variable_notify_suppressed st
    ∧ is_variable_notify_suppressed
        ((suppress_variable_notifications
          (fun s => suppress_variable_notifications body s) st).2)
        = is_variable_notify_suppressed st
    ∧ is_variable_notify_suppressed
        ({ st with suppress := true } : SuppressState σ) = true
    ∧ (suppress_variable_notifications body st).1
        = (body { st with suppress := true }).1 :=
  ⟨rfl, rfl, rfl, rfl⟩

/-- C10.  clear_pending_grad and clear_pending_data are not atomic on
error: on an id list where the registered ids pre precede an unknown id
u, the call stops with RuntimeError, yet the pending flags of every id
in pre have already been set to false in the resulting state. -/
theorem clear_pending_partial_mutation (pre : List String) (u : String)
    (rest : List String) (st : RegState)
    (hpre : ∀ i ∈ pre, get_variable st (.prim (.str i)) ≠ Option.none)
    (hu : get_variable st (.prim (.str u)) = Option.none) :
    ((clear_pending_grad (pre ++ u :: rest) st).2
        = some (.runtimeError "Variable not found in registry")
      ∧ ∀ i ∈ pre, ∀ v,
          get_variable ((clear_pending_grad (pre ++ u :: rest) st).1)
            (.prim (.str i)) = some v → v.pending_grad = false)
    ∧ ((clear_pending_data (pre ++ u :: rest) st).2
        = some (.runtimeError "Variable not found in registry")
      ∧ ∀ i ∈ pre, ∀ v,
          get_variable ((clear_pending_data (pre ++ u :: rest) st).1)
            (.prim (.str i)) = some v → v.pending_data = false) :=
  ⟨clear_pending_grad_stops_at_unknown pre u rest st hpre hu,
   clear_pending_data_stops_at_unknown pre u rest st hpre hu⟩

/-- A registered variable with both pending flags set, used by the C10
witness. -/
def c10var : Variable :=
  ⟨.prim (.str "a"), .prim (.str "payload"), .prim (.str "role"),
   .prim (.bool true), .prim (.bool false), .listV .nil, .prim (.int 0),
   Option.none, Option.none, .prim (.bool true), true, true, true⟩

/-- Registry holding only the variable a, with its pending flags true. -/
def c10st : RegState := ⟨[], [(.prim (.str "a"), c10var)], []⟩

/-- Witness for C10: clearing ids a then the unknown zz raises, and the
already-processed variable a ends with its flag false although the call
failed. -/
theorem clear_pending_partial_mutation_witness :
    (clear_pending_grad ["a", "zz"] c10st).2
        = some (.runtimeError "Variable not found in registry")
    ∧ ({ c10var with pending_grad := false } : Variable).pending_grad = false
    ∧ (clear_pending_data ["a", "zz"] c10st).2
        = some (.runtimeError "Variable not found in registry")
    ∧ ({ c10var with pending_data := false } : Variable).pending_data = false :=
  have h := clear_pending_partial_mutation ["a"] "zz" [] c10st
    (by decide) (by decide)
  ⟨h.1.1,
   h.1.2 "a" (by decide) { c10var with pending_grad := false } (by decide),
   h.2.1,
   h.2.2 "a" (by decide) { c10var with pending_data := false } (by decide)⟩

/-! ## The serialization boundary: afnio/_utils.py -/

/-- Variable / Parameter instance test (Parameter subclasses Variable,
so isinstance(x, Variable) accepts both). -/
def PyVal.isVariableInst : PyVal → Bool
  | .varObj _ => true
  | .paramObj _ => true
  | _ => false

/-- Parameter instance test. -/
def PyVal.isParameterInst : PyVal → Bool
  | .paramObj _ => true
  | _ => false

/-- BaseModel instance test (ChatCompletionModel subclasses BaseModel). -/
def PyVal.isModelInst : PyVal → Bool
  | .modelObj _ => true
  | _ => false

/-- The callable registry together with the uuid4 supply: entries maps
callable ids to the registered callables, counter indexes the next
uuid4 draw of this process. -/
structure CallableReg where
  entries : List (String × Nat)
  counter : Nat
deriving DecidableEq

/-- The uuid4 supply: the id produced by the next draw. -/
def freshUuid (c : CallableReg) : String := "uuid4-" ++ toString c.counter

/-- Modelled from the spec: register_callable lives in
afnio/tellurio/_callable_registry.py, which is not under src/ (only its
importers are).  Per spec 3 and 9.4, serializing a callable assigns it
an opaque id and stores a strong reference in the callable registry. -/
def register_callable (cid : String) (f : Nat) (c : CallableReg) : CallableReg :=
  { entries := ainsert c.entries cid f, counter := c.counter }

mutual

/-- Embeds _serialize_arg (afnio/_utils.py 14-66): Parameter, Variable and
ChatCompletionModel instances become tagged dicts carrying their id;
any other callable is registered under a fresh uuid4 and becomes a
callable-tagged dict; lists, tuples and dicts are encoded element-wise
preserving their shape; primitives pass through unchanged.  Objects of
any other Python type raise TypeError; they are outside the modelled
value domain, so the embedding is total. -/
def Utils._serialize_arg : PyVal → CallableReg → PyVal × CallableReg
  | .paramObj id, c =>
    (.dictV (.cons "__parameter__" (.prim (.bool true))
      (.cons "variable_id" (.prim (.str id)) .nil)), c)
  | .varObj id, c =>
    (.dictV (.cons "__variable__" (.prim (.bool true))
      (.cons "variable_id" (.prim (.str id)) .nil)), c)
  | .modelObj id, c =>
    (.dictV (.cons "__model_client__" (.prim (.bool true))
      (.cons "model_id" (.prim (.str id)) .nil)), c)
  | .fnObj f, c =>
    let cid := freshUuid c
    let c2 := register_callable cid f { c with counter := c.counter + 1 }
    (.dictV (.cons "__callable__" (.prim (.bool true))
      (.cons "callable_id" (.prim (.str cid)) .nil)), c2)
  | .listV xs, c =>
    let r := Utils.serializeList xs c
    (.listV r.1, r.2)
  | .tupleV xs, c =>
    let r := Utils.serializeList xs c
    (.tupleV r.1, r.2)
  | .dictV d, c =>
    let r := Utils.serializeDict d c
    (.dictV r.1, r.2)
  | .prim p, c => (.prim p, c)

/-- Element-wise encoding of a list or tuple, threading the callable
registry left to right. -/
def Utils.serializeList : PyList → CallableReg → PyList × CallableReg
  | .nil, c => (.nil, c)
  | .cons hd tl, c =>
    let r1 := Utils._serialize_arg hd c
    let r2 := Utils.serializeList tl r1.2
    (.cons r1.1 r2.1, r2.2)

/-- Key-preserving encoding of a dict over its values. -/
def Utils.serializeDict : PyDict → CallableReg → PyDict × CallableReg
  | .nil, c => (.nil, c)
  | .cons k v tl, c =>
    let r1 := Utils._serialize_arg v c
    let r2 := Utils.serializeDict tl r1.2
    (.cons k r1.1 r2.1, r2.2)

end

/-- The registries read by the _utils.py deserializer: VARIABLE_REGISTRY
and MODEL_REGISTRY, both keyed by strings and holding the registered
objects. -/
structure Registries where
  vars : List (String × PyVal)
  models : List (String × PyVal)
deriving DecidableEq

/-- Registry .get with the key taken from the wire: the registries are
string-keyed (Dict[str, ...]), so only a string key can hit. -/
def regGetStr (entries : List (String × PyVal)) (key : PyVal) : Option PyVal :=
  match key with
  | .prim (.str s) => alookup entries s
  | _ => Option.none

/-- The registry lookup of the decoder's variable branch
(afnio/_utils.py 94-103): a miss, or a falsy hit that is not a Variable
instance, raises ValueError; otherwise the registered object is
returned. -/
def Utils.lookupVariable (r : Registries) (key : PyVal) : Except PyErr PyVal :=
  match regGetStr r.vars key with
  | Option.none => .error (.valueError "Variable not found")
  | some v =>
    if !v.truthy && !v.isVariableInst then .error (.valueError "Variable not found")
    else .ok v

/-- The registry lookup of the decoder's parameter branch
(afnio/_utils.py 104-114); Parameters share VARIABLE_REGISTRY. -/
def Utils.lookupParameter (r : Registries) (key : PyVal) : Except PyErr PyVal :=
  match regGetStr r.vars key with
  | Option.none => .error (.valueError "Parameter not found")
  | some v =>
    if !v.truthy && !v.isParameterInst then .error (.valueError "Parameter not found")
    else .ok v

/-- The registry lookup of the decoder's model branch
(afnio/_utils.py 115-123). -/
def Utils.lookupModel (r : Registries) (key : PyVal) : Except PyErr PyVal :=
  match regGetStr r.models key with
  | Option.none => .error (.valueError "Model not found")
  | some v =>
    if !v.truthy && !v.isModelInst then .error (.valueError "Model not found")
    else .ok v

mutual

/-- Embeds _deserialize_output (afnio/_utils.py 69-133): a dict with a truthy
__variable__ / __parameter__ tag and a variable_id key (respectively a
truthy __model_client__ tag and a model_id key) resolves through the
registries; every other dict decodes key-preservingly over its values;
lists and tuples decode element-wise keeping their shape; primitives
pass through; any other object (a Variable instance itself, a callable)
raises TypeError. -/
def Utils._deserialize_output (r : Registries) : PyVal → Except PyErr PyVal
  | .dictV d =>
    if (d.pyGet "__variable__").truthy && d.hasKey "variable_id" then
      Utils.lookupVariable r (d.pyGet "variable_id")
    else if (d.pyGet "__parameter__").truthy && d.hasKey "variable_id" then
      Utils.lookupParameter r (d.pyGet "variable_id")
    else if (d.pyGet "__model_client__").truthy && d.hasKey "model_id" then
      Utils.lookupModel r (d.pyGet "model_id")
    else
      match Utils.deserializeDict r d with
      | .ok d2 => .ok (.dictV d2)
      | .error e => .error e
  | .listV xs =>
    match Utils.deserializeList r xs with
    | .ok ys => .ok (.listV ys)
    | .error e => .error e
  | .tupleV xs =>
    match Utils.deserializeList r xs with
    | .ok ys => .ok (.tupleV ys)
    | .error e => .error e
  | .prim p => .ok (.prim p)
  | .varObj _ => .error (.typeError "Cannot deserialize object")
  | .paramObj _ => .error (.typeError "Cannot deserialize object")
  | .modelObj _ => .error (.typeError "Cannot deserialize object")
  | .fnObj _ => .error (.typeError "Cannot deserialize object")

/-- Element-wise decoding of a list or tuple, first error propagating. -/
def Utils.deserializeList (r : Registries) : PyList → Except PyErr PyList
  | .nil => .ok .nil
  | .cons hd tl =>
    match Utils._deserialize_output r hd with
    | .error e => .error e
    | .ok hd2 =>
      match Utils.deserializeList r tl with
      | .error e => .error e
      | .ok tl2 => .ok (.cons hd2 tl2)

/-- Key-preserving decoding of a plain dict over its values. -/
def Utils.deserializeDict (r : Registries) : PyDict → Except PyErr PyDict
  | .nil => .ok .nil
  | .cons k v tl =>
    match Utils._deserialize_output r v with
    | .error e => .error e
    | .ok v2 =>
      match Utils.deserializeDict r tl with
      | .error e => .error e
      | .ok tl2 => .ok (.cons k v2 tl2)

end

/-- The decoder's tag detection on a dict: true when one of the three
tagged branches of _deserialize_output would fire. -/
def dictTagged (d : PyDict) : Bool :=
  ((d.pyGet "__variable__").truthy && d.hasKey "variable_id")
  || ((d.pyGet "__parameter__").truthy && d.hasKey "variable_id")
  || ((d.pyGet "__model_client__").truthy && d.hasKey "model_id")

mutual

/-- The encodable values of the round-trip claim for which decoding the
encoding can restore the value: primitives; Variables, Parameters and
models registered in their registry under their own id; lists, tuples
and dicts of such values, where no dict triggers the decoder's tag
detection.  Callables are excluded (the claim does not include them:
decoding a callable tag yields the tag dict, not the callable). -/
def roundTrippable (r : Registries) : PyVal → Bool
  | .prim _ => true
  | .varObj id => alookup r.vars id == some (.varObj id)
  | .paramObj id => alookup r.vars id == some (.paramObj id)
  | .modelObj id => alookup r.models id == some (.modelObj id)
  | .fnObj _ => false
  | .listV xs => roundTrippableList r xs
  | .tupleV xs => roundTrippableList r xs
  | .dictV d => !dictTagged d && roundTrippableDict r d

/-- Element-wise roundTrippable. -/
def roundTrippableList (r : Registries) : PyList → Bool
  | .nil => true
  | .cons hd tl => roundTrippable r hd && roundTrippableList r tl

/-- Value-wise roundTrippable. -/
def roundTrippableDict (r : Registries) : PyDict → Bool
  | .nil => true
  | .cons _ v tl => roundTrippable r v && roundTrippableDict r tl

end

/-! ## Round-trip lemmas for the _utils.py boundary -/

mutual

theorem serialize_state_fixed : ∀ (r : Registries) (x : PyVal) (c : CallableReg),
    roundTrippable r x = true → (Utils._serialize_arg x c).2 = c
  | _, .prim _, _, _ => rfl
  | _, .varObj _, _, _ => rfl
  | _, .paramObj _, _, _ => rfl
  | _, .modelObj _, _, _ => rfl
  | r, .fnObj f, c, h => by simp [roundTrippable] at h
  | r, .listV xs, c, h => by
      have h2 : roundTrippableList r xs = true := by
        simpa [roundTrippable] using h
      simp only [Utils._serialize_arg]
      exact serializeList_state_fixed r xs c h2
  | r, .tupleV xs, c, h => by
      have h2 : roundTrippableList r xs = true := by
        simpa [roundTrippable] using h
      simp only [Utils._serialize_arg]
      exact serializeList_state_fixed r xs c h2
  | r, .dictV d, c, h => by
      have h2 : roundTrippableDict r d = true := by
        have := h
        simp only [roundTrippable, Bool.and_eq_true] at this
        exact this.2
      simp only [Utils._serialize_arg]
      exact serializeDict_state_fixed r d c h2

theorem serializeList_state_fixed : ∀ (r : Registries) (xs : PyList) (c : CallableReg),
    roundTrippableList r xs = true → (Utils.serializeList xs c).2 = c
  | _, .nil, _, _ => rfl
  | r, .cons hd tl, c, h => by
      have hp := h
      simp only [roundTrippableList, Bool.and_eq_true] at hp
      have e1 := serialize_state_fixed r hd c hp.1
      simp only [Utils.serializeList]
      rw [e1]
      exact serializeList_state_fixed r tl c hp.2

theorem serializeDict_state_fixed : ∀ (r : Registries) (d : PyDict) (c : CallableReg),
    roundTrippableDict r d = true → (Utils.serializeDict d c).2 = c
  | _, .nil, _, _ => rfl
  | r, .cons k v tl, c, h => by
      have hp := h
      simp only [roundTrippableDict, Bool.and_eq_true] at hp
      have e1 := serialize_state_fixed r v c hp.1
      simp only [Utils.serializeDict]
      rw [e1]
      exact serializeDict_state_fixed r tl c hp.2

end

/-- Encoding preserves Python truthiness: primitives are unchanged,
entity and callable objects (truthy) become nonempty tag dicts (truthy),
and containers keep their emptiness. -/
theorem serialize_truthy (x : PyVal) (c : CallableReg) :
    ((Utils._serialize_arg x c).1).truthy = x.truthy := by
  cases x with
  | prim p => rfl
  | varObj id => rfl
  | paramObj id => rfl
  | modelObj id => rfl
  | fnObj f => rfl
  | listV xs => cases xs <;> rfl
  | tupleV xs => cases xs <;> rfl
  | dictV d => cases d <;> rfl

theorem serializeDict_get : ∀ (r : Registries) (d : PyDict) (c : CallableReg),
    roundTrippableDict r d = true → ∀ k : String,
    ((Utils.serializeDict d c).1).get? k
      = (d.get? k).map (fun v => (Utils._serialize_arg v c).1)
  | _, .nil, _, _, _ => rfl
  | r, .cons k0 v0 tl, c, h, k => by
      have hp := h
      simp only [roundTrippableDict, Bool.and_eq_true] at hp
      have e1 := serialize_state_fixed r v0 c hp.1
      simp only [Utils.serializeDict, PyDict.get?]
      rw [e1]
      by_cases hk : k0 = k
      · simp [hk]
      · simp only [if_neg hk]
        exact serializeDict_get r tl c hp.2 k

theorem serializeDict_pyGet_truthy (r : Registries) (d : PyDict) (c : CallableReg)
    (h : roundTrippableDict r d = true) (k : String) :
    (((Utils.serializeDict d c).1).pyGet k).truthy = (d.pyGet k).truthy := by
  unfold PyDict.pyGet
  rw [serializeDict_get r d c h k]
  cases hv : d.get? k with
  | none => rfl
  | some v => simp [serialize_truthy]

theorem serializeDict_hasKey (r : Registries) (d : PyDict) (c : CallableReg)
    (h : roundTrippableDict r d = true) (k : String) :
    ((Utils.serializeDict d c).1).hasKey k = d.hasKey k := by
  unfold PyDict.hasKey
  rw [serializeDict_get r d c h k]
  cases d.get? k <;> rfl

theorem serializeDict_tag (r : Registries) (d : PyDict) (c : CallableReg)
    (h : roundTrippableDict r d = true) :
    dictTagged ((Utils.serializeDict d c).1) = dictTagged d := by
  unfold dictTagged
  rw [serializeDict_pyGet_truthy r d c h, serializeDict_pyGet_truthy r d c h,
    serializeDict_pyGet_truthy r d c h, serializeDict_hasKey r d c h,
    serializeDict_hasKey r d c h]

mutual

theorem roundtrip_val : ∀ (r : Registries) (x : PyVal) (c : CallableReg),
    roundTrippable r x = true →
    Utils._deserialize_output r ((Utils._serialize_arg x c).1) = .ok x
  | _, .prim _, _, _ => rfl
  | r, .varObj id, c, h => by
      have hreg : alookup r.vars id = some (.varObj id) := by
        simpa [roundTrippable] using h
      simp [Utils._serialize_arg, Utils._deserialize_output, PyDict.pyGet,
        PyDict.get?, PyDict.hasKey, PyVal.truthy, Prim.truthy,
        Utils.lookupVariable, regGetStr, hreg, PyVal.isVariableInst]
  | r, .paramObj id, c, h => by
      have hreg : alookup r.vars id = some (.paramObj id) := by
        simpa [roundTrippable] using h
      simp [Utils._serialize_arg, Utils._deserialize_output, PyDict.pyGet,
        PyDict.get?, PyDict.hasKey, PyVal.truthy, Prim.truthy,
        Utils.lookupParameter, regGetStr, hreg, PyVal.isParameterInst]
  | r, .modelObj id, c, h => by
      have hreg : alookup r.models id = some (.modelObj id) := by
        simpa [roundTrippable] using h
      simp [Utils._serialize_arg, Utils._deserialize_output, PyDict.pyGet,
        PyDict.get?, PyDict.hasKey, PyVal.truthy, Prim.truthy,
        Utils.lookupModel, regGetStr, hreg, PyVal.isModelInst]
  | r, .fnObj f, c, h => by simp [roundTrippable] at h
  | r, .listV xs, c, h => by
      have h2 : roundTrippableList r xs = true := by
        simpa [roundTrippable] using h
      simp only [Utils._serialize_arg, Utils._deserialize_output]
      rw [roundtrip_list r xs c h2]
  | r, .tupleV xs, c, h => by
      have h2 : roundTrippableList r xs = true := by
        simpa [roundTrippable] using h
      simp only [Utils._serialize_arg, Utils._deserialize_output]
      rw [roundtrip_list r xs c h2]
  | r, .dictV d, c, h => by
      have hp := h
      simp only [roundTrippable, Bool.and_eq_true, Bool.not_eq_eq_eq_not,
        Bool.not_true] at hp
      obtain ⟨hnt, hrd⟩ := hp
      have htag : dictTagged ((Utils.serializeDict d c).1) = false := by
        rw [serializeDict_tag r d c hrd, hnt]
      unfold dictTagged at htag
      rw [Bool.or_eq_false_iff, Bool.or_eq_false_iff] at htag
      obtain ⟨⟨hc1, hc2⟩, hc3⟩ := htag
      simp only [Utils._serialize_arg, Utils._deserialize_output, hc1, hc2, hc3,
        Bool.false_eq_true, if_false]
      rw [roundtrip_dict r d c hrd]

theorem roundtrip_list : ∀ (r : Registries) (xs : PyList) (c : CallableReg),
    roundTrippableList r xs = true →
    Utils.deserializeList r ((Utils.serializeList xs c).1) = .ok xs
  | _, .nil, _, _ => rfl
  | r, .cons hd tl, c, h => by
      have hp := h
      simp only [roundTrippableList, Bool.and_eq_true] at hp
      have e1 := serialize_state_fixed r hd c hp.1
      simp only [Utils.serializeList]
      rw [e1]
      simp only [Utils.deserializeList]
      rw [roundtrip_val r hd c hp.1, roundtrip_list r tl c hp.2]

theorem roundtrip_dict : ∀ (r : Registries) (d : PyDict) (c : CallableReg),
    roundTrippableDict r d = true →
    Utils.deserializeDict r ((Utils.serializeDict d c).1) = .ok d
  | _, .nil, _, _ => rfl
  | r, .cons k v tl, c, h => by
      have hp := h
      simp only [roundTrippableDict, Bool.and_eq_true] at hp
      have e1 := serialize_state_fixed r v c hp.1
      simp only [Utils.serializeDict]
      rw [e1]
      simp only [Utils.deserializeDict]
      rw [roundtrip_val r v c hp.1, roundtrip_dict r tl c hp.2]

end

deriving instance DecidableEq for Except

/-! ## C5: the round-trip claim -/

/-- A registry holding the Variable v1 under its own id. -/
def c5reg : Registries := ⟨[("v1", .varObj "v1")], []⟩

/-- An encodable string-keyed mapping of primitives that happens to look
like the tag encoding of a Variable. -/
def c5x : PyVal :=
  .dictV (.cons "__variable__" (.prim (.bool true))
    (.cons "variable_id" (.prim (.str "v1")) .nil))

/-- C5 counterexample.  c5x is an encodable value (a string-keyed
mapping of primitives, encoded to itself), yet decoding its encoding
returns the registered Variable v1 instead of the mapping: the tagged
branches of the decoder capture any mapping that collides with the tag
encoding, so decode(encode(x)) = x fails for such mappings. -/
theorem roundtrip_fails_on_tag_collision :
    (Utils._serialize_arg c5x ⟨[], 0⟩).1 = c5x
    ∧ Utils._deserialize_output c5reg ((Utils._serialize_arg c5x ⟨[], 0⟩).1)
        = .ok (.varObj "v1")
    ∧ Utils._deserialize_output c5reg ((Utils._serialize_arg c5x ⟨[], 0⟩).1)
        ≠ .ok c5x := by
  refine ⟨rfl, rfl, ?_⟩
  decide

/-- C5 as amended.  For every encodable value built from primitives,
entities registered under their own id, and lists, tuples and
string-keyed mappings of such values, in which no mapping triggers the
decoder tag detection and no callable occurs, decoding the encoding
restores the value exactly (tuples back as tuples, lists as lists). -/
theorem roundtrip_holds_without_tag_collision (r : Registries) (x : PyVal)
    (c : CallableReg) (h : roundTrippable r x = true) :
    Utils._deserialize_output r ((Utils._serialize_arg x c).1) = .ok x :=
  roundtrip_val r x c h

/-- The registries of the C5 witness: a Variable, a Parameter and a
model, each registered under its own id. -/
def c5wreg : Registries :=
  ⟨[("v1", .varObj "v1"), ("p1", .paramObj "p1")], [("m1", .modelObj "m1")]⟩

/-- The C5 witness value: a tuple holding an entity of each kind, a
list, an untagged mapping and primitives. -/
def c5wx : PyVal :=
  .tupleV (.cons (.varObj "v1")
    (.cons (.listV (.cons (.prim (.int 3)) (.cons (.prim (.str "hi")) .nil)))
      (.cons (.dictV (.cons "k" (.prim (.bool true)) .nil))
        (.cons (.paramObj "p1")
          (.cons (.modelObj "m1") (.cons (.prim .none) .nil))))))

/-- Witness for the amended C5 at a concrete registry and value. -/
theorem roundtrip_holds_without_tag_collision_witness :
    Utils._deserialize_output c5wreg ((Utils._serialize_arg c5wx ⟨[], 0⟩).1)
      = .ok c5wx :=
  roundtrip_holds_without_tag_collision c5wreg c5wx ⟨[], 0⟩ (by decide)

/-! ## C8: the Function.apply serializer and callables -/

mutual

/-- Embeds _serialize_arg (afnio/autodiff/function.py 188-233): the serializer
used by Function.apply for its args and kwargs.  Variable instances
(Parameters included, since Parameter subclasses Variable and the
isinstance test fires first) become variable-tagged dicts; model clients
become model-tagged dicts; containers are encoded element-wise;
primitives pass through.  The callable branch of the _utils encoder is
commented out in this copy (TODO in the source), so a callable matches
no isinstance test and reaches the final TypeError. -/
def FnApply._serialize_arg : PyVal → Except PyErr PyVal
  | .varObj id =>
    .ok (.dictV (.cons "__variable__" (.prim (.bool true))
      (.cons "variable_id" (.prim (.str id)) .nil)))
  | .paramObj id =>
    .ok (.dictV (.cons "__variable__" (.prim (.bool true))
      (.cons "variable_id" (.prim (.str id)) .nil)))
  | .modelObj id =>
    .ok (.dictV (.cons "__model_client__" (.prim (.bool true))
      (.cons "model_id" (.prim (.str id)) .nil)))
  | .listV xs =>
    match FnApply.serializeList xs with
    | .ok ys => .ok (.listV ys)
    | .error e => .error e
  | .tupleV xs =>
    match FnApply.serializeList xs with
    | .ok ys => .ok (.tupleV ys)
    | .error e => .error e
  | .dictV d =>
    match FnApply.serializeDict d with
    | .ok d2 => .ok (.dictV d2)
    | .error e => .error e
  | .prim p => .ok (.prim p)
  | .fnObj _ => .error (.typeError "Cannot serialize object of type function")

/-- Element-wise encoding for the Function.apply serializer. -/
def FnApply.serializeList : PyList → Except PyErr PyList
  | .nil => .ok .nil
  | .cons hd tl =>
    match FnApply._serialize_arg hd with
    | .error e => .error e
    | .ok hd2 =>
      match FnApply.serializeList tl with
      | .error e => .error e
      | .ok tl2 => .ok (.cons hd2 tl2)

/-- Key-preserving encoding for the Function.apply serializer. -/
def FnApply.serializeDict : PyDict → Except PyErr PyDict
  | .nil => .ok .nil
  | .cons k v tl =>
    match FnApply._serialize_arg v with
    | .error e => .error e
    | .ok v2 =>
      match FnApply.serializeDict tl with
      | .error e => .error e
      | .ok tl2 => .ok (.cons k v2 tl2)

end

/-- C8 counterexample.  The claim covers the encoder used to serialize
the arguments of Function.apply; that serializer rejects callables with
TypeError instead of registering them. -/
theorem fn_serialize_arg_rejects_callable :
    FnApply._serialize_arg (.fnObj 0)
      = .error (.typeError "Cannot serialize object of type function") := rfl

/-- C8 as amended.  The registry-based encoder (afnio/_utils.py, also
afnio/autodiff/utils.py) registers every callable that is not an entity
under the id produced by the fresh uuid4 draw and returns the tagged
callable dict; when that id does not collide with an existing entry the
registration appends a new entry holding the callable.  The serializer
that Function.apply itself uses (afnio/autodiff/function.py) instead
fails with TypeError on every callable. -/
theorem serialize_callable_registers (c : CallableReg) (f : Nat)
    (h : alookup c.entries (freshUuid c) = Option.none) :
    (Utils._serialize_arg (.fnObj f) c).1
      = .dictV (.cons "__callable__" (.prim (.bool true))
          (.cons "callable_id" (.prim (.str (freshUuid c))) .nil))
    ∧ ((Utils._serialize_arg (.fnObj f) c).2).entries
        = c.entries ++ [(freshUuid c, f)]
    ∧ alookup ((Utils._serialize_arg (.fnObj f) c).2).entries (freshUuid c)
        = some f
    ∧ FnApply._serialize_arg (.fnObj f)
        = .error (.typeError "Cannot serialize object of type function") := by
  refine ⟨rfl, ?_, ?_, rfl⟩
  · simp only [Utils._serialize_arg, register_callable]
    exact ainsert_absent_append c.entries (freshUuid c) f h
  · simp only [Utils._serialize_arg, register_callable]
    exact alookup_ainsert_self c.entries (freshUuid c) f

/-- Witness for the amended C8 at an empty callable registry. -/
theorem serialize_callable_registers_witness :
    (Utils._serialize_arg (.fnObj 7) ⟨[], 0⟩).1
      = .dictV (.cons "__callable__" (.prim (.bool true))
          (.cons "callable_id" (.prim (.str "uuid4-0")) .nil))
    ∧ ((Utils._serialize_arg (.fnObj 7) ⟨[], 0⟩).2).entries = [("uuid4-0", 7)]
    ∧ alookup ((Utils._serialize_arg (.fnObj 7) ⟨[], 0⟩).2).entries "uuid4-0"
        = some 7
    ∧ FnApply._serialize_arg (.fnObj 7)
        = .error (.typeError "Cannot serialize object of type function") :=
  have h := serialize_callable_registers ⟨[], 0⟩ 7 rfl
  ⟨h.1, h.2.1, h.2.2.1, h.2.2.2⟩

/-! ## C7: Function.apply response decoding -/

/-- Python d[k]: the value, or KeyError when the key is absent. -/
def PyDict.item (d : PyDict) (k : String) : Except PyErr PyVal :=
  match d.get? k with
  | some v => .ok v
  | Option.none => .error (.keyError k)

/-- PENDING_GRAD_FN_ASSIGNMENTS.setdefault(key, []).append(var): appends
the variable to the existing waiter list, or creates the key with a
one-element list. -/
def pendingAppend (l : List (PyVal × List Variable)) (key : PyVal) (v : Variable) :
    List (PyVal × List Variable) :=
  match alookup l key with
  | some vs => ainsert l key (vs ++ [v])
  | Option.none => l ++ [(key, [v])]

/-- Assembles the decoded Variable and the registry state from the read
payload fields: the grad_fn node is resolved through the node registry;
an unresolved node id leaves grad_fn unset, records the pending node id
on the variable and enqueues it in the pending-grad-fn map; finally the
variable is registered under its variable_id. -/
def FnApply.assembleVariable (dataV roleV reqV retV gradV outV gfnV leafV vidV : PyVal)
    (st : RegState) : Variable × RegState :=
  let gfn := get_node st gfnV
  let var : Variable :=
    ⟨vidV, dataV, roleV, reqV, retV, gradV, outV, gfn,
     (match gfn with | some _ => Option.none | Option.none => some gfnV),
     leafV, false, false, true⟩
  let st2 : RegState :=
    match gfn with
    | some _ => st
    | Option.none =>
      { st with pending_grad_fn := pendingAppend st.pending_grad_fn gfnV var }
  (var, register_variable var st2)

/-- The Variable-payload branch of _deserialize_output
(afnio/autodiff/function.py 249-277).  The payload fields are read in
source order (a missing field raises KeyError).  Modelled from the spec
where the Variable class is concerned: afnio/_variable.py is not under
src/, and per spec 4.3 step 1 and 4.4 the constructor and setters used
here run under the suppression flag and only assign the local fields,
while the gated grad_fn assignment succeeds inside
_allow_grad_fn_assignment.  The pending map and the registry hold the
same object; the model stores its final field values. -/
def FnApply.buildVariable (d : PyDict) (st : RegState) :
    Except PyErr (Variable × RegState) := do
  let dataV ← d.item "data"
  let roleV ← d.item "role"
  let reqV ← d.item "requires_grad"
  let retV ← d.item "_retain_grad"
  let gradV ← d.item "_grad"
  let outV ← d.item "_output_nr"
  let gfnV ← d.item "_grad_fn"
  let leafV ← d.item "is_leaf"
  let vidV ← d.item "variable_id"
  return FnApply.assembleVariable dataV roleV reqV retV gradV outV gfnV leafV vidV st

/-- The decoded output of Function.apply: a single Variable, or a tuple
of recursively decoded entries. -/
inductive DecodedOut where
  | one (v : Variable)
  | many (xs : List DecodedOut)

mutual

/-- Embeds _deserialize_output (afnio/autodiff/function.py 236-285): a dict
carrying variable_id and data is decoded as a full Variable payload; a
list decodes element-wise into a tuple; anything else (including dicts
without those two keys, tuples and primitives) raises TypeError. -/
def FnApply._deserialize_output : PyVal → RegState →
    Except PyErr (DecodedOut × RegState)
  | .dictV d, st =>
    if d.hasKey "variable_id" && d.hasKey "data" then
      match FnApply.buildVariable d st with
      | .ok r => .ok (.one r.1, r.2)
      | .error e => .error e
    else
      .error (.typeError "Deserialization only supports Variable or Tuple of Variable")
  | .listV xs, st =>
    match FnApply.deserializeList xs st with
    | .ok r => .ok (.many r.1, r.2)
    | .error e => .error e
  | _, _ =>
    .error (.typeError "Deserialization only supports Variable or Tuple of Variable")

/-- Element-wise decoding of the outputs list, threading the registry
state, first error propagating. -/
def FnApply.deserializeList : PyList → RegState →
    Except PyErr (List DecodedOut × RegState)
  | .nil, st => .ok ([], st)
  | .cons hd tl, st =>
    match FnApply._deserialize_output hd st with
    | .error e => .error e
    | .ok r =>
      match FnApply.deserializeList tl r.2 with
      | .error e => .error e
      | .ok r2 => .ok (r.1 :: r2.1, r2.2)

end

/-- The response handling of Function.apply
(afnio/autodiff/function.py 167-181): result_data =
response.get("result", dict()).get("data"); a missing result key falls
back to the empty dict; a result value that is not a dict fails the
attribute access; a missing or falsy result_data raises RuntimeError
(the source tests it with `if not result_data`); otherwise result_data
is deserialized. -/
def FnApply.applyDecode (response : PyDict) (st : RegState) :
    Except PyErr (DecodedOut × RegState) :=
  match (response.get? "result").getD (.dictV .nil) with
  | .dictV rd =>
    if (rd.pyGet "data").truthy then
      FnApply._deserialize_output (rd.pyGet "data") st
    else
      .error (.runtimeError "Failed to apply function: server did not return data")
  | _ => .error (.attributeError "result value has no attribute get")

/-- A dict carrying every field of the full Variable payload the decoder
reads. -/
def payloadComplete (d : PyDict) : Bool :=
  d.hasKey "variable_id" && d.hasKey "data" && d.hasKey "role"
    && d.hasKey "requires_grad" && d.hasKey "_retain_grad" && d.hasKey "_grad"
    && d.hasKey "_output_nr" && d.hasKey "_grad_fn" && d.hasKey "is_leaf"

/-- A list whose entries are all full Variable-payload dicts. -/
def allPayloadDicts : PyList → Bool
  | .nil => true
  | .cons (.dictV d) tl => payloadComplete d && allPayloadDicts tl
  | .cons _ _ => false

/-- The shapes the Function.apply decoder accepts at the top of a value:
a dict carrying variable_id and data, or a list. -/
def FnApply.decodableShape : PyVal → Bool
  | .dictV d => d.hasKey "variable_id" && d.hasKey "data"
  | .listV _ => true
  | _ => false

theorem buildVariable_complete (d : PyDict) (st : RegState)
    (h : payloadComplete d = true) :
    FnApply.buildVariable d st
      = .ok (FnApply.assembleVariable (d.pyGet "data") (d.pyGet "role")
          (d.pyGet "requires_grad") (d.pyGet "_retain_grad") (d.pyGet "_grad")
          (d.pyGet "_output_nr") (d.pyGet "_grad_fn") (d.pyGet "is_leaf")
          (d.pyGet "variable_id") st) := by
  simp only [payloadComplete, Bool.and_eq_true, PyDict.hasKey,
    Option.isSome_iff_exists] at h
  obtain ⟨⟨⟨⟨⟨⟨⟨⟨hvid, hdata⟩, hrole⟩, hreq⟩, hret⟩, hgrad⟩, hout⟩, hgfn⟩, hleaf⟩ := h
  obtain ⟨vidV, hvidV⟩ := hvid
  obtain ⟨dataV, hdataV⟩ := hdata
  obtain ⟨roleV, hroleV⟩ := hrole
  obtain ⟨reqV, hreqV⟩ := hreq
  obtain ⟨retV, hretV⟩ := hret
  obtain ⟨gradV, hgradV⟩ := hgrad
  obtain ⟨outV, houtV⟩ := hout
  obtain ⟨gfnV, hgfnV⟩ := hgfn
  obtain ⟨leafV, hleafV⟩ := hleaf
  simp only [FnApply.buildVariable, PyDict.item, PyDict.pyGet, hvidV, hdataV,
    hroleV, hreqV, hretV, hgradV, houtV, hgfnV, hleafV, Option.getD_some]
  rfl

theorem fn_deserializeList_payloads : ∀ (xs : PyList) (st : RegState),
    allPayloadDicts xs = true →
    ∃ (vs : List Variable) (st2 : RegState),
      FnApply.deserializeList xs st = .ok (vs.map DecodedOut.one, st2)
  | .nil, st, _ => ⟨[], st, rfl⟩
  | .cons (.dictV d) tl, st, h => by
      have hp := h
      simp only [allPayloadDicts, Bool.and_eq_true] at hp
      have hb := buildVariable_complete d st hp.1
      have hk : (d.hasKey "variable_id" && d.hasKey "data") = true := by
        have := hp.1
        simp only [payloadComplete, Bool.and_eq_true] at this
        simp [this.1.1.1.1.1.1.1.1, this.1.1.1.1.1.1.1.2]
      obtain ⟨vs, st3, hrec⟩ := fn_deserializeList_payloads tl
        (FnApply.assembleVariable (d.pyGet "data") (d.pyGet "role")
          (d.pyGet "requires_grad") (d.pyGet "_retain_grad") (d.pyGet "_grad")
          (d.pyGet "_output_nr") (d.pyGet "_grad_fn") (d.pyGet "is_leaf")
          (d.pyGet "variable_id") st).2 hp.2
      refine ⟨(FnApply.assembleVariable (d.pyGet "data") (d.pyGet "role")
          (d.pyGet "requires_grad") (d.pyGet "_retain_grad") (d.pyGet "_grad")
          (d.pyGet "_output_nr") (d.pyGet "_grad_fn") (d.pyGet "is_leaf")
          (d.pyGet "variable_id") st).1 :: vs, st3, ?_⟩
      simp only [FnApply.deserializeList, FnApply._deserialize_output, hk,
        if_true, hb, hrec, List.map]

/-- C7 counterexample.  The response carries result.data (the key is
present, its value the empty list), and the decoder would turn the
empty list into the empty tuple of Variables; yet Function.apply tests
result_data for truthiness, so it raises RuntimeError instead of
decoding. -/
theorem apply_fails_on_present_falsy_data :
    ((.cons "data" (.listV .nil) .nil : PyDict).hasKey "data") = true
    ∧ FnApply.applyDecode (.cons "result" (.dictV (.cons "data" (.listV .nil) .nil)) .nil)
        ⟨[], [], []⟩
        = .error (.runtimeError "Failed to apply function: server did not return data")
    ∧ FnApply._deserialize_output (.listV .nil) ⟨[], [], []⟩
        = .ok (.many [], ⟨[], [], []⟩) :=
  ⟨rfl, rfl, rfl⟩

/-- C7 as amended.  Function.apply fails with RuntimeError whenever
result.data is missing or falsy (None, empty containers, empty string,
zero, False), not only when absent.  When result.data is truthy, the
decoded output is a single Variable from a full Variable-payload dict
(one carrying variable_id, data and the other payload fields), a tuple
of Variables from a list of such dicts, and any shape that is neither a
dict carrying variable_id and data nor a list fails with TypeError. -/
theorem fn_apply_decode_shapes :
    (∀ (response : PyDict) (rd : PyDict) (st : RegState),
      (response.get? "result").getD (.dictV .nil) = .dictV rd →
      (rd.pyGet "data").truthy = false →
      FnApply.applyDecode response st
        = .error (.runtimeError "Failed to apply function: server did not return data"))
    ∧ (∀ (d : PyDict) (st : RegState), payloadComplete d = true →
        ∃ (v : Variable) (st2 : RegState),
          FnApply._deserialize_output (.dictV d) st = .ok (.one v, st2))
    ∧ (∀ (xs : PyList) (st : RegState), allPayloadDicts xs = true →
        ∃ (vs : List Variable) (st2 : RegState),
          FnApply._deserialize_output (.listV xs) st
            = .ok (.many (vs.map DecodedOut.one), st2))
    ∧ (∀ (x : PyVal) (st : RegState), FnApply.decodableShape x = false →
        FnApply._deserialize_output x st
          = .error (.typeError "Deserialization only supports Variable or Tuple of Variable")) := by
  refine ⟨?_, ?_, ?_, ?_⟩
  · intro response rd st h1 h2
    unfold FnApply.applyDecode
    rw [h1]
    simp only [h2, Bool.false_eq_true, if_false]
  · intro d st h
    have hb := buildVariable_complete d st h
    have hk : (d.hasKey "variable_id" && d.hasKey "data") = true := by
      simp only [payloadComplete, Bool.and_eq_true] at h
      simp [h.1.1.1.1.1.1.1.1, h.1.1.1.1.1.1.1.2]
    refine ⟨(FnApply.assembleVariable (d.pyGet "data") (d.pyGet "role")
        (d.pyGet "requires_grad") (d.pyGet "_retain_grad") (d.pyGet "_grad")
        (d.pyGet "_output_nr") (d.pyGet "_grad_fn") (d.pyGet "is_leaf")
        (d.pyGet "variable_id") st).1,
      (FnApply.assembleVariable (d.pyGet "data") (d.pyGet "role")
        (d.pyGet "requires_grad") (d.pyGet "_retain_grad") (d.pyGet "_grad")
        (d.pyGet "_output_nr") (d.pyGet "_grad_fn") (d.pyGet "is_leaf")
        (d.pyGet "variable_id") st).2, ?_⟩
    simp only [FnApply._deserialize_output, hk, if_true, hb]
  · intro xs st h
    obtain ⟨vs, st2, hrec⟩ := fn_deserializeList_payloads xs st h
    refine ⟨vs, st2, ?_⟩
    simp only [FnApply._deserialize_output, hrec]
  · intro x st h
    cases x with
    | dictV d =>
      simp only [FnApply.decodableShape] at h
      simp only [FnApply._deserialize_output, h, Bool.false_eq_true, if_false]
    | listV xs => simp [FnApply.decodableShape] at h
    | prim p => rfl
    | varObj id => rfl
    | paramObj id => rfl
    | modelObj id => rfl
    | fnObj f => rfl
    | tupleV xs => rfl

/-- The full Variable payload used by the C7 witness. -/
def c7payload : PyDict :=
  .cons "variable_id" (.prim (.str "out-9"))
    (.cons "data" (.prim (.str "abc"))
      (.cons "role" (.prim (.str "r"))
        (.cons "requires_grad" (.prim (.bool true))
          (.cons "_retain_grad" (.prim (.bool false))
            (.cons "_grad" (.listV .nil)
              (.cons "_output_nr" (.prim (.int 0))
                (.cons "_grad_fn" (.prim .none)
                  (.cons "is_leaf" (.prim (.bool false)) .nil))))))))

/-- Witness for the amended C7 at concrete inputs for each branch. -/
theorem fn_apply_decode_shapes_witness :
    FnApply.applyDecode (.cons "result" (.dictV .nil) .nil) ⟨[], [], []⟩
      = .error (.runtimeError "Failed to apply function: server did not return data")
    ∧ (∃ (v : Variable) (st2 : RegState),
        FnApply._deserialize_output (.dictV c7payload) ⟨[], [], []⟩
          = .ok (.one v, st2))
    ∧ (∃ (vs : List Variable) (st2 : RegState),
        FnApply._deserialize_output (.listV (.cons (.dictV c7payload) .nil))
          ⟨[], [], []⟩ = .ok (.many (vs.map DecodedOut.one), st2))
    ∧ FnApply._deserialize_output (.prim (.int 5)) ⟨[], [], []⟩
        = .error (.typeError "Deserialization only supports Variable or Tuple of Variable") :=
  have h := fn_apply_decode_shapes
  ⟨h.1 (.cons "result" (.dictV .nil) .nil) .nil ⟨[], [], []⟩ rfl rfl,
   h.2.1 c7payload ⟨[], [], []⟩ (by decide),
   h.2.2.1 (.cons (.dictV c7payload) .nil) ⟨[], [], []⟩ (by decide),
   h.2.2.2 (.prim (.int 5)) ⟨[], [], []⟩ rfl⟩

end Afnio
